import Mathlib

/-!
Verification development for the torchsense Conv-TasNet variant
(`src/torchsense/models/conv_tasnet.py`) and its training wrapper
(`src/torchsense/models/lit_model/lit_multimodal.py`).

The development has three layers:

* a *shape semantics*: every layer of the network is modelled by the
  transformation it performs on tensor shapes (lists of dimension sizes),
  together with the errors PyTorch raises on invalid shapes;
* a *dataflow semantics*: the top-level `forward` methods are modelled as
  functions over concrete tensors (nested lists of rationals; the learned
  layers, whose weights are random at construction, appear as opaque
  function-valued fields), so that statements about which intermediate
  tensor flows where can be proved;
* a *real-valued semantics* for `GlobalLayerNorm`, where the floating point
  arithmetic of the code is idealised over `ℝ` so that the mean/variance
  properties of the normalised output can be stated exactly.
-/

/-! ## Shape-level semantics -/

/-- Python exceptions relevant to the modelled code paths. -/
inductive PyErr where
  | attributeError (msg : String)
  | runtimeError (msg : String)
deriving DecidableEq

/-- A tensor shape: the list of dimension sizes, outermost first. -/
abbrev Shape := List Nat

instance : DecidableEq (Except PyErr Shape) := fun a b =>
  match a, b with
  | .ok x, .ok y => decidable_of_iff (x = y) (by simp)
  | .ok _, .error _ => isFalse (by simp)
  | .error _, .ok _ => isFalse (by simp)
  | .error e, .error f => decidable_of_iff (e = f) (by simp)

/-- Output length of `nn.Conv1d` with the given kernel size, stride, padding
and dilation on an input of length `L`:
`floor((L + 2*padding - dilation*(kernel-1) - 1) / stride) + 1`,
defined only when the padded input is at least as long as the dilated kernel
(PyTorch raises a `RuntimeError` otherwise). -/
def conv1dOutLen (kernel stride padding dilation L : Nat) : Option Nat :=
  if stride = 0 then none
  else if dilation * (kernel - 1) + 1 ≤ L + 2 * padding then
    some ((L + 2 * padding - (dilation * (kernel - 1) + 1)) / stride + 1)
  else none

/-- Output length of `nn.ConvTranspose1d` (dilation 1, output_padding 0):
`(L-1)*stride - 2*padding + kernel`, defined when positive. -/
def convTrans1dOutLen (kernel stride padding L : Nat) : Option Nat :=
  if L = 0 then none
  else if 2 * padding + 1 ≤ (L - 1) * stride + kernel then
    some ((L - 1) * stride + kernel - 2 * padding)
  else none

/-- Shape behaviour of `nn.Conv1d.forward` on a batched 3-D input
`[batch, channels, length]`: the channel count must equal `in_channels`
(and the channel counts must be divisible by `groups`, checked when the
layer is constructed), and the output length must be positive. -/
def conv1dShape3 (inC outC kernel stride padding dilation groups : Nat)
    (s : Shape) : Except PyErr Shape :=
  match s with
  | [b, c, l] =>
    if groups = 0 ∨ inC % groups ≠ 0 ∨ outC % groups ≠ 0 then
      .error (.runtimeError "invalid groups")
    else if c ≠ inC then
      .error (.runtimeError "expected input channels to match")
    else
      match conv1dOutLen kernel stride padding dilation l with
      | some lo => .ok [b, outC, lo]
      | none => .error (.runtimeError "calculated output size too small")
  | _ => .error (.runtimeError "expected 3D input")

/-- Shape behaviour of `Conv1D.forward` (the `nn.Conv1d` subclass of the
source).  The source intends to raise
`RuntimeError("{} accept 2/3D tensor as input".format(self.__name__))`
for inputs whose rank is outside `{2, 3}`; however `nn.Module` instances
have no `__name__` attribute, so evaluating the format argument raises an
`AttributeError` before the `RuntimeError` can be constructed.  A 2-D input
is unsqueezed at axis 1 (`torch.unsqueeze(x, 1)`) before the convolution. -/
def Conv1D.forwardShape (inC outC kernel stride padding dilation groups : Nat)
    (s : Shape) : Except PyErr Shape :=
  if s.length = 2 ∨ s.length = 3 then
    match s with
    | [a, l] => conv1dShape3 inC outC kernel stride padding dilation groups [a, 1, l]
    | _ => conv1dShape3 inC outC kernel stride padding dilation groups s
  else
    .error (.attributeError "Conv1D object has no attribute __name__")

/-- Shape behaviour of `nn.ConvTranspose1d.forward` on a batched 3-D
input (the only rank the repository feeds it). -/
def convTrans1dShape3 (inC outC kernel stride padding : Nat)
    (s : Shape) : Except PyErr Shape :=
  match s with
  | [b, c, l] =>
    if c ≠ inC then .error (.runtimeError "expected input channels to match")
    else
      match convTrans1dOutLen kernel stride padding l with
      | some lo => .ok [b, outC, lo]
      | none => .error (.runtimeError "calculated output size too small")
  | _ => .error (.runtimeError "expected 3D input")

/-- Shape behaviour of `Encoder.forward`: the strided front convolution
`Conv1D(in_channels, out_channels, kernel_size, stride)` followed by three
refinement stages `Conv1D(out, out, kernel_size=3, stride=1, padding=1)`,
each followed by `nn.PReLU()` (elementwise, hence shape-preserving). -/
def Encoder.forwardShape (inC outC kernel stride : Nat) (s : Shape) :
    Except PyErr Shape := do
  let s ← Conv1D.forwardShape inC outC kernel stride 0 1 1 s
  let s ← Conv1D.forwardShape outC outC 3 1 1 1 1 s
  let s ← Conv1D.forwardShape outC outC 3 1 1 1 1 s
  let s ← Conv1D.forwardShape outC outC 3 1 1 1 1 s
  return s

/-- Shape behaviour of `AccEncoder.forward`: an upsampling
`nn.ConvTranspose1d(in_channels, out_channels, kernel_size=3, stride=2,
padding=1)` followed by two refinement `Conv1D(out, out, 3, 1, padding=1)`
stages with `nn.PReLU()` after each. -/
def AccEncoder.forwardShape (inC outC : Nat) (s : Shape) :
    Except PyErr Shape := do
  let s ← convTrans1dShape3 inC outC 3 2 1 s
  let s ← Conv1D.forwardShape outC outC 3 1 1 1 1 s
  let s ← Conv1D.forwardShape outC outC 3 1 1 1 1 s
  return s

/-- Shape behaviour of the three `select_norm` variants on the 3-D inputs
the repository feeds them.  All three (`GlobalLayerNorm`,
`CumulativeLayerNorm`, `nn.BatchNorm1d`) preserve the shape and require the
channel axis to match the `dim` the norm was built with (the affine
parameters have shape `(dim, 1)`, `nn.LayerNorm(dim)` normalises the last
axis after the transpose, and `BatchNorm1d(dim)` tracks `dim` channels). -/
def normShape (dim : Nat) (s : Shape) : Except PyErr Shape :=
  match s with
  | [b, c, l] =>
    if c = dim then .ok [b, c, l]
    else .error (.runtimeError "normalization channel mismatch")
  | _ => .error (.runtimeError "norm expects 3D input")

/-- One broadcast dimension, PyTorch semantics: sizes agree, or one of the
two is `1` and is stretched to the other. -/
def broadcastDim (a b : Nat) : Option Nat :=
  if a = b then some a
  else if a = 1 then some b
  else if b = 1 then some a
  else none

/-- Right-aligned broadcast of two shapes, on the reversed lists. -/
def broadcastRev : List Nat → List Nat → Option (List Nat)
  | [], ys => some ys
  | xs, [] => some xs
  | x :: xs, y :: ys => do
    let d ← broadcastDim x y
    let rest ← broadcastRev xs ys
    return d :: rest

/-- Shape of an elementwise binary operation (`+`, `*`) between two
tensors, PyTorch broadcasting semantics. -/
def elementwiseShape (s t : Shape) : Except PyErr Shape :=
  match broadcastRev s.reverse t.reverse with
  | some r => .ok r.reverse
  | none => .error (.runtimeError "tensor sizes must match")

/-- `self.pad` of `Conv1D_Block.__init__`:
`(dilation * (kernel_size - 1)) // 2` in non-causal mode,
`dilation * (kernel_size - 1)` in causal mode. -/
def Conv1D_Block.padOf (kernel dilation : Nat) (causal : Bool) : Nat :=
  if causal then dilation * (kernel - 1) else dilation * (kernel - 1) / 2

/-- Length of `c[:, :, :-pad]` on a last axis of length `L`.  Python slice
semantics: for `pad = 0` the slice `[:-0] = [:0]` is *empty*; for
`pad > 0` the last `pad` entries are dropped. -/
def sliceNegLen (pad L : Nat) : Nat :=
  if pad = 0 then 0 else L - pad

/-- Shape behaviour of `Conv1D_Block.forward` on `[b, c, l]`:
`conv1x1` (1×1, `in_channels → out_channels`), `PReLU_1`, `norm_1`, the
depthwise `dwconv` (groups = `out_channels`, padding `self.pad`, the given
dilation), `PReLU_2`, `norm_2`, the causal trim `c[:, :, :-self.pad]`, the
1×1 projection back to `in_channels` (`Sc_conv` and `Output` have identical
shape behaviour), and the residual addition with the input.  In the
skip-connection branch the pair `(Sc, c + x)` has this same shape in both
components. -/
def Conv1D_Block.forwardShape (inC outC kernel dilation : Nat) (causal : Bool)
    (s : Shape) : Except PyErr Shape := do
  let s1 ← Conv1D.forwardShape inC outC 1 1 0 1 1 s
  let s1 ← normShape outC s1
  let pad := Conv1D_Block.padOf kernel dilation causal
  let s2 ← Conv1D.forwardShape outC outC kernel 1 pad dilation outC s1
  let s2 ← normShape outC s2
  let s3 := if causal then
      (match s2 with
       | [b, c, l] => ([b, c, sliceNegLen pad l] : Shape)
       | other => other)
    else s2
  let s4 ← conv1dShape3 outC inC 1 1 0 1 1 s3
  elementwiseShape s4 s

/-- Configuration record of one `Conv1D_Block` appended by
`Separation.__init__`. -/
structure BlockCfg where
  in_channels : Nat
  out_channels : Nat
  kernel_size : Nat
  dilation : Nat
  norm : String
  causal : Bool
  skip_con : Bool
deriving DecidableEq

/-- The `nn.ModuleList` built by `Separation.__init__`:
`for r in range(R): for x in range(X): append Conv1D_Block(B, H, P, 2**x,
norm, causal, skip_con)`. -/
def Separation.blocks (R X B H P : Nat) (norm : String)
    (causal skip_con : Bool) : List BlockCfg :=
  (List.range R).foldl
    (fun acc _ =>
      (List.range X).foldl
        (fun acc2 x => acc2 ++ [⟨B, H, P, 2 ^ x, norm, causal, skip_con⟩]) acc)
    []

/-- Shape behaviour of `Separation.forward`: the input is threaded through
every block in order.  Each block maps `[b, B, l]` back to `[b, B, l]`, and
when skip connections are enabled every skip contribution has that same
shape, so the returned tensor (sum of skips, or the final residual stream)
has the shape produced by chaining the blocks. -/
def Separation.forwardShape (R X B H P : Nat) (norm : String)
    (causal skip_con : Bool) (s : Shape) : Except PyErr Shape :=
  (Separation.blocks R X B H P norm causal skip_con).foldl
    (fun acc cfg => acc >>= fun sh =>
      Conv1D_Block.forwardShape cfg.in_channels cfg.out_channels
        cfg.kernel_size cfg.dilation cfg.causal sh)
    (.ok s)

/-- Remove every axis of size 1 (`torch.squeeze(x)`). -/
def squeezeAll (s : Shape) : Shape := s.filter (fun d => d ≠ 1)

/-- `torch.squeeze(x, dim=1)`: drop axis 1 when it has size 1. -/
def squeezeDim1 (s : Shape) : Shape :=
  match s with
  | a :: b :: rest => if b = 1 then a :: rest else s
  | other => other

/-- Shape behaviour of `Decoder.forward`: three same-padded
`nn.ConvTranspose1d(N, N, 3, stride=1, padding=1)` stages with `nn.PReLU()`
after each, the final `nn.ConvTranspose1d(N, 1, kernel_size, stride)`, and
the squeeze logic: if `torch.squeeze(x)` would be 1-D only axis 1 is
squeezed, otherwise all singleton axes are squeezed. -/
def Decoder.forwardShape (N kernel stride : Nat) (s : Shape) :
    Except PyErr Shape := do
  let s1 ← convTrans1dShape3 N N 3 1 1 s
  let s2 ← convTrans1dShape3 N N 3 1 1 s1
  let s3 ← convTrans1dShape3 N N 3 1 1 s2
  let s4 ← convTrans1dShape3 N 1 kernel stride 0 s3
  if (squeezeAll s4).length = 1 then return squeezeDim1 s4
  else return squeezeAll s4

/-- Sizes of the chunks produced by `torch.chunk(·, k, dim=1)` on a channel
axis of size `c`: chunks of size `ceil(c/k)` until `c` is exhausted. -/
def chunkSizesGo (sz : Nat) : Nat → Nat → List Nat
  | 0, _ => []
  | fuel + 1, rem => if rem = 0 then [] else min sz rem :: chunkSizesGo sz fuel (rem - sz)

/-- Chunk sizes of `torch.chunk` with `k` requested chunks of a size-`c` axis. -/
def chunkSizes (c k : Nat) : List Nat :=
  if k = 0 then [] else chunkSizesGo ((c + k - 1) / k) k c

/-- Shapes of `torch.chunk(m, chunks=k, dim=1)` on a 3-D tensor. -/
def chunkShapesDim1 (k : Nat) (s : Shape) : List Shape :=
  match s with
  | [b, c, l] => (chunkSizes c k).map (fun ci => [b, ci, l])
  | _ => []

/-- Shape of `torch.stack(ts, dim=0)`: all shapes must agree and a new
leading axis of size `ts.length` is created. -/
def stackShapes : List Shape → Except PyErr Shape
  | [] => .error (.runtimeError "stack expects a non-empty list")
  | s0 :: rest =>
    if rest.all (fun s => s = s0) then .ok ((rest.length + 1) :: s0)
    else .error (.runtimeError "stack expects each tensor to be equal size")

/-- `x.unsqueeze(1)`: insert a new axis of size 1 at position 1. -/
def unsqueezeAt1 (s : Shape) : Shape :=
  match s with
  | a :: rest => a :: 1 :: rest
  | [] => [1]

/-- Shape behaviour of `ConvTasNet.forward` on the batch `(z, x)`
(secondary waveform `z`, primary waveform `x`), following the source line
by line: both encoders, `cln` normalisation and 1×1 bottleneck of each
branch, channel concatenation, the 1×1 fusion `self.conv1d`, the
separation stack, mask generation (`gen_masks`), `torch.chunk` into
`num_spks` masks stacked on a new speaker axis, the (shape-preserving
elementwise / softmax) activation, the per-speaker products `w * m[i]`,
decoding of each product, and `s[0].unsqueeze(1)`. -/
def ConvTasNet.forwardShape (N L B H P X R : Nat) (norm : String)
    (num_spks : Nat) (causal skip_con : Bool) (z x : Shape) :
    Except PyErr Shape := do
  let w ← Encoder.forwardShape 1 N L (L / 2) x
  let wacc ← AccEncoder.forwardShape 1 (N / 2) z
  let e ← normShape N w
  let e ← Conv1D.forwardShape N B 1 1 0 1 1 e
  let eacc ← normShape (N / 2) wacc
  let eacc ← Conv1D.forwardShape (N / 2) B 1 1 0 1 1 eacc
  let e ← match e, eacc with
    | [b1, c1, l1], [b2, c2, l2] =>
      if b1 = b2 ∧ l1 = l2 then Except.ok ([b1, c1 + c2, l1] : Shape)
      else Except.error (.runtimeError "cat size mismatch")
    | _, _ => Except.error (.runtimeError "cat expects 3D inputs")
  let e ← conv1dShape3 (2 * B) B 1 1 0 1 1 e
  let e ← Separation.forwardShape R X B H P norm causal skip_con e
  let m ← Conv1D.forwardShape B (num_spks * N) 1 1 0 1 1 e
  let chunks := chunkShapesDim1 num_spks m
  let _ ← stackShapes chunks
  if num_spks = 0 ∨ chunks.length < num_spks then
    .error (.runtimeError "list index out of range")
  else do
    let mi := chunks.headD []
    let d ← elementwiseShape w mi
    let s0 ← Decoder.forwardShape N L (L / 2) d
    return unsqueezeAt1 s0

/-! ## Dataflow semantics over concrete tensors

The learned layers (convolutions with randomly initialised weights, PReLU,
normalisations) are abstracted as opaque function-valued fields; the tensor
plumbing of the `forward` methods — tuple destructuring, concatenation,
chunking, stacking, elementwise products and sums, slicing, squeezing —
is modelled concretely.  Scalar entries are idealised as rationals
(the code computes on floating-point tensors).  The elementwise binary
operations are used by the claims only on operands of equal shape; shape
checking and broadcasting live in the shape semantics above. -/

/-- A 3-axis tensor `[batch, channel, time]` with rational entries. -/
abbrev Tensor3 := List (List (List ℚ))

/-- Elementwise addition of two equally-shaped 3-axis tensors. -/
def tAdd (a b : Tensor3) : Tensor3 :=
  List.zipWith (List.zipWith (List.zipWith (· + ·))) a b

/-- Elementwise (Hadamard) product of two equally-shaped 3-axis tensors. -/
def tMul (a b : Tensor3) : Tensor3 :=
  List.zipWith (List.zipWith (List.zipWith (· * ·))) a b

/-- `torch.cat((a, b), dim=1)`: concatenate along the channel axis. -/
def catDim1 (a b : Tensor3) : Tensor3 := List.zipWith (· ++ ·) a b

/-- The value `c[:, :, :-p]`: for `p = 0` the Python slice `[:-0]` is
empty, otherwise the last `p` entries of every time series are dropped. -/
def sliceNegT (p : Nat) (t : Tensor3) : Tensor3 :=
  t.map (fun sample => sample.map
    (fun row => if p = 0 then [] else row.take (row.length - p)))

/-- `torch.chunk(t, k, dim=1)` as a list of 3-axis tensors. -/
def chunkDim1 (k : Nat) (t : Tensor3) : List Tensor3 :=
  let c := (t.headD []).length
  let sz := (c + k - 1) / k
  (List.range (chunkSizes c k).length).map
    (fun i => t.map (fun sample => (sample.drop (i * sz)).take sz))

/-- `s.unsqueeze(1)` on a 2-axis tensor `[batch, time]`: re-insert the
channel axis. -/
def unsqueeze1T (s : List (List ℚ)) : Tensor3 := s.map (fun row => [row])

/-- A Python value a truthiness test is applied to: the repository stores
either a `bool` or a `str` in `skip_con`. -/
inductive PyVal where
  | bool (b : Bool)
  | str (s : String)
deriving DecidableEq

/-- Python truthiness: a `bool` is itself, a `str` is truthy iff non-empty. -/
def truthy : PyVal → Bool
  | .bool b => b
  | .str s => !s.isEmpty

/-- What `Conv1D_Block.forward` returns: a pair `(Sc, c + x)` in the
skip-connection branch, a single tensor `x + c` otherwise. -/
inductive BlockResult where
  | pair (sc out : Tensor3)
  | single (out : Tensor3)
deriving DecidableEq

/-- Whether a `Conv1D_Block.forward` result is the two-element tuple. -/
def BlockResult.isPair : BlockResult → Bool
  | .pair _ _ => true
  | .single _ => false

/-- The modules and attributes a constructed `Conv1D_Block` carries.  The
layers built in `__init__` (`conv1x1`, `PReLU_1`, `norm_1`, `dwconv`,
`PReLU_2`, `norm_2`, `Sc_conv`, `Output`) are abstracted as functions. -/
structure Conv1DBlockM where
  conv1x1 : Tensor3 → Tensor3
  PReLU_1 : Tensor3 → Tensor3
  norm_1 : Tensor3 → Tensor3
  dwconv : Tensor3 → Tensor3
  PReLU_2 : Tensor3 → Tensor3
  norm_2 : Tensor3 → Tensor3
  Sc_conv : Tensor3 → Tensor3
  Output : Tensor3 → Tensor3
  pad : Nat
  causal : Bool
  skip_con : PyVal

/-- `Conv1D_Block.__init__` (dataflow view): the freshly initialised layer
modules appear as the function parameters `conv1x1 … Output`; `self.pad`,
`self.causal` and `self.skip_con` are set exactly as in the source.  The
source defaults are `causal=False` and `skip_con='True'` — the *string*
`'True'`. -/
def Conv1DBlockM.init
    (conv1x1 PReLU_1 norm_1 dwconv PReLU_2 norm_2 Sc_conv Output :
      Tensor3 → Tensor3)
    (kernel_size dilation : Nat)
    (causal : Bool := false) (skip_con : PyVal := .str "True") :
    Conv1DBlockM :=
  { conv1x1 := conv1x1, PReLU_1 := PReLU_1, norm_1 := norm_1,
    dwconv := dwconv, PReLU_2 := PReLU_2, norm_2 := norm_2,
    Sc_conv := Sc_conv, Output := Output,
    pad := Conv1D_Block.padOf kernel_size dilation causal,
    causal := causal, skip_con := skip_con }

/-- `Conv1D_Block.forward`: the layer chain, the causal trim, and the
branch on the truthiness of `self.skip_con`. -/
def Conv1DBlockM.forward (blk : Conv1DBlockM) (x : Tensor3) : BlockResult :=
  let c := blk.norm_1 (blk.PReLU_1 (blk.conv1x1 x))
  let c := blk.norm_2 (blk.PReLU_2 (blk.dwconv c))
  let c := if blk.causal then sliceNegT blk.pad c else c
  if truthy blk.skip_con then .pair (blk.Sc_conv c) (tAdd (blk.Output c) x)
  else .single (tAdd x (blk.Output c))

/-- The running value of the Python variable `skip_connection`, which is
initialised to the integer `0` and becomes a tensor after the first
addition. -/
inductive SkipAcc where
  | zero
  | tens (t : Tensor3)
deriving DecidableEq

/-- `skip_connection + skip`: adding a tensor to the integer `0` yields the
tensor; adding to a tensor is elementwise. -/
def SkipAcc.add : SkipAcc → Tensor3 → SkipAcc
  | .zero, t => .tens t
  | .tens a, t => .tens (tAdd a t)

/-- The skip-connection loop of `Separation.forward`:
`skip, out = self.separation[i](x); skip_connection += skip; x = out`.
Unpacking a single tensor into the pair `skip, out` raises a `TypeError`
in Python; it is modelled as an error. -/
def Separation.runSkip : SkipAcc → List Conv1DBlockM → Tensor3 →
    Except PyErr SkipAcc
  | acc, [], _ => .ok acc
  | acc, b :: bs, x =>
    match b.forward x with
    | .pair skip out => Separation.runSkip (acc.add skip) bs out
    | .single _ => .error (.runtimeError "cannot unpack tensor into two values")

/-- The plain loop of `Separation.forward`:
`out = self.separation[i](x); x = out`.  A block that returns the tuple
`(Sc, c + x)` would make `x` a tuple and crash the next block; it is
modelled as an error. -/
def Separation.runPlain : List Conv1DBlockM → Tensor3 → Except PyErr Tensor3
  | [], x => .ok x
  | b :: bs, x =>
    match b.forward x with
    | .single out => Separation.runPlain bs out
    | .pair _ _ => .error (.runtimeError "tuple passed where a tensor is expected")

/-- `Separation.forward`: branch on `self.skip_con`; either accumulate and
return the skip sum (started from the integer `0`), or return the final
residual stream. -/
def SeparationM.forward (skip_con : Bool) (blocks : List Conv1DBlockM)
    (x : Tensor3) : Except PyErr SkipAcc :=
  if skip_con then Separation.runSkip .zero blocks x
  else (Separation.runPlain blocks x).map .tens

/-- Reference recursion: thread `x` through the blocks' residual outputs,
collecting every block's skip contribution, provided every block returns a
pair. -/
def threadPairs : List Conv1DBlockM → Tensor3 → Option (List Tensor3 × Tensor3)
  | [], x => some ([], x)
  | b :: bs, x =>
    match b.forward x with
    | .pair s o => (threadPairs bs o).map (fun p => (s :: p.1, p.2))
    | .single _ => none

/-- Reference recursion: thread `x` through the blocks' residual outputs,
provided every block returns a single tensor; yields the final residual
stream. -/
def threadSingles : List Conv1DBlockM → Tensor3 → Option Tensor3
  | [], x => some x
  | b :: bs, x =>
    match b.forward x with
    | .single o => threadSingles bs o
    | .pair _ _ => none

/-- Sum of a list of skip contributions, starting from the integer `0` and
adding in order. -/
def sumSkips (l : List Tensor3) : SkipAcc := l.foldl SkipAcc.add .zero

/-- The modules a constructed `ConvTasNet` carries; each learned layer is
abstracted as a function on tensors.  `activation` acts on the tensor
stacked along the new speaker axis (relu/sigmoid act elementwise, softmax
across the speaker axis: all preserve the list-of-tensors structure). -/
structure ConvTasNetM where
  encoder : Tensor3 → Tensor3
  acc_encoder : Tensor3 → Tensor3
  LayerN_S : Tensor3 → Tensor3
  AccLayerN_S : Tensor3 → Tensor3
  BottleN_S : Tensor3 → Tensor3
  AccBottleN_S : Tensor3 → Tensor3
  conv1d : Tensor3 → Tensor3
  separation : Tensor3 → Tensor3
  gen_masks : Tensor3 → Tensor3
  activation : List Tensor3 → List Tensor3
  num_spks : Nat
  decoder : Tensor3 → List (List ℚ)

/-- `ConvTasNet.forward`, line by line: destructure `(z, x)`, encode both
modalities, normalise and bottleneck-project each, concatenate and fuse,
separate, generate masks, chunk into `num_spks` masks stacked along a new
speaker axis (`torch.stack` on the chunk list is the identity in this
representation), apply the activation, form `d[i] = w * m[i]`, decode each
`d[i]`, and return `s[0].unsqueeze(1)`. -/
def ConvTasNetM.forward (net : ConvTasNetM) (batch : Tensor3 × Tensor3) :
    Tensor3 :=
  let z := batch.1
  let x := batch.2
  let w := net.encoder x
  let w_acc := net.acc_encoder z
  let e := net.BottleN_S (net.LayerN_S w)
  let e_acc := net.AccBottleN_S (net.AccLayerN_S w_acc)
  let e2 := net.conv1d (catDim1 e e_acc)
  let e3 := net.separation e2
  let m := net.gen_masks e3
  let ma := net.activation (chunkDim1 net.num_spks m)
  let d := (List.range net.num_spks).map (fun i => tMul w (ma.getD i []))
  let s := d.map net.decoder
  unsqueeze1T (s.getD 0 [])

/-! ## Real-valued semantics of `GlobalLayerNorm` -/

/-- `torch.mean(x, (1, 2), keepdim=True)`: the per-sample mean over the
channel and time axes jointly. -/
noncomputable def GlobalLayerNorm.meanCT {b c l : Nat} (x : Fin b → Fin c → Fin l → ℝ)
    (i : Fin b) : ℝ :=
  (∑ j, ∑ k, x i j k) / (c * l)

/-- `torch.mean((x - mean) ** 2, (1, 2), keepdim=True)`: the per-sample
(biased) variance over the channel and time axes jointly. -/
noncomputable def GlobalLayerNorm.varCT {b c l : Nat} (x : Fin b → Fin c → Fin l → ℝ)
    (i : Fin b) : ℝ :=
  (∑ j, ∑ k, (x i j k - GlobalLayerNorm.meanCT x i) ^ 2) / (c * l)

/-- `GlobalLayerNorm.forward` on a 3-axis input (the `x.dim() != 3` guard
is enforced by the type), floating point idealised over `ℝ`: with
elementwise affine, `weight * (x - mean) / sqrt(var + eps) + bias` (the
`(dim, 1)`-shaped parameters broadcast over time); without it,
`(x - mean) / sqrt(var + eps)`. -/
noncomputable def GlobalLayerNorm.forwardR {b c l : Nat} (eps : ℝ)
    (elementwise_affine : Bool) (weight bias : Fin c → ℝ)
    (x : Fin b → Fin c → Fin l → ℝ) : Fin b → Fin c → Fin l → ℝ :=
  fun i j k =>
    if elementwise_affine then
      weight j * (x i j k - GlobalLayerNorm.meanCT x i) /
          Real.sqrt (GlobalLayerNorm.varCT x i + eps) + bias j
    else
      (x i j k - GlobalLayerNorm.meanCT x i) /
        Real.sqrt (GlobalLayerNorm.varCT x i + eps)

/-! ## Module-tree semantics of `LitMultimodalModel.weights_init` -/

/-- The module classes the recursive initialisation dispatches on.
`isinstance` checks in `weights_init` distinguish `nn.Conv2d`,
`nn.ConvTranspose2d` and `nn.BatchNorm2d`; everything else falls to the
generic `nn.Module` branch.  The wrapped `ConvTasNet` is built from the
1-D variants. -/
inductive MKind where
  | conv1d
  | conv2d
  | convTranspose1d
  | convTranspose2d
  | batchNorm1d
  | batchNorm2d
  | prelu
  | other
deriving DecidableEq

/-- A module-composition tree: the class of the module, whether its
weights have been (re)initialised by `weights_init`, and its child
modules. -/
inductive PyModule where
  | mk (kind : MKind) (weightsInitialized : Bool) (children : List PyModule)

/-- The class of a module. -/
def PyModule.kind : PyModule → MKind
  | .mk k _ _ => k

/-- Whether `weights_init` has (re)initialised this module's weights. -/
def PyModule.weightsInitialized : PyModule → Bool
  | .mk _ w _ => w

/-- The child modules. -/
def PyModule.children : PyModule → List PyModule
  | .mk _ _ cs => cs

/-- The module classes whose parameters `weights_init` writes:
`nn.Conv2d` / `nn.ConvTranspose2d` (normal weights, zero bias) and
`nn.BatchNorm2d` (normal weights, zero bias).  The 1-D classes fall
through to the recursive `nn.Module` branch. -/
def weightsInitTarget : MKind → Bool
  | .conv2d => true
  | .convTranspose2d => true
  | .batchNorm2d => true
  | _ => false

mutual

/-- `LitMultimodalModel.weights_init(m)`: initialise the parameters of a
`Conv2d`/`ConvTranspose2d` or `BatchNorm2d` module, otherwise recurse over
`m.named_children()`. -/
def weights_init : PyModule → PyModule
  | .mk k w cs =>
    if weightsInitTarget k then .mk k true cs
    else .mk k w (weightsInitList cs)

/-- `weights_init` applied to each child in order. -/
def weightsInitList : List PyModule → List PyModule
  | [] => []
  | c :: cs => weights_init c :: weightsInitList cs

end

mutual

/-- `self.model.apply(self.weights_init)`: `nn.Module.apply` applies the
function to every child recursively, then to the module itself. -/
def applyWeightsInit : PyModule → PyModule
  | .mk k w cs => weights_init (.mk k w (applyWeightsInitList cs))

/-- `nn.Module.apply` over a child list. -/
def applyWeightsInitList : List PyModule → List PyModule
  | [] => []
  | c :: cs => applyWeightsInit c :: applyWeightsInitList cs

end

mutual

/-- Every submodule of a module tree, the module itself included. -/
def PyModule.submodules : PyModule → List PyModule
  | .mk k w cs => .mk k w cs :: PyModule.submodulesList cs

/-- Submodules of each child, concatenated. -/
def PyModule.submodulesList : List PyModule → List PyModule
  | [] => []
  | c :: cs => PyModule.submodules c ++ PyModule.submodulesList cs

end

mutual

/-- Reference transformation: mark every submodule whose class is a
`weights_init` target as initialised, leaving other flags unchanged. -/
def setFlags : PyModule → PyModule
  | .mk k w cs => .mk k (w || weightsInitTarget k) (setFlagsList cs)

/-- `setFlags` over a child list. -/
def setFlagsList : List PyModule → List PyModule
  | [] => []
  | c :: cs => setFlags c :: setFlagsList cs

end

/-- A convolution module class (1-D or 2-D, ordinary or transposed). -/
def isConvKind : MKind → Bool
  | .conv1d => true
  | .conv2d => true
  | .convTranspose1d => true
  | .convTranspose2d => true
  | _ => false

/-- A batch-normalization module class (1-D or 2-D). -/
def isBatchNormKind : MKind → Bool
  | .batchNorm1d => true
  | .batchNorm2d => true
  | _ => false

/-- The effect of `LitMultimodalModel.__init__` on the wrapped model:
`self.model.apply(self.weights_init)`. -/
def LitMultimodalModel.initModel (model : PyModule) : PyModule :=
  applyWeightsInit model

/-! ## Concrete instances used by the witnesses -/

/-- The identity, standing in for a concrete learned layer. -/
def idT : Tensor3 → Tensor3 := fun t => t

/-- A concrete tensor with one batch element, one channel and an empty
time axis. -/
def t0 : Tensor3 := [[[]]]

/-- A concrete block whose `skip_con` is the boolean `True` (as
`Separation.__init__` passes it). -/
def blkPairW : Conv1DBlockM :=
  Conv1DBlockM.init idT idT idT idT idT idT idT idT 3 1 false (.bool true)

/-- A concrete block whose `skip_con` is the boolean `False`. -/
def blkSingleW : Conv1DBlockM :=
  Conv1DBlockM.init idT idT idT idT idT idT idT idT 3 1 false (.bool false)

/-- A concrete `ConvTasNet` dataflow model with two speakers. -/
def netW : ConvTasNetM :=
  { encoder := idT, acc_encoder := idT, LayerN_S := idT, AccLayerN_S := idT,
    BottleN_S := idT, AccBottleN_S := idT, conv1d := idT, separation := idT,
    gen_masks := idT, activation := fun ms => ms, num_spks := 2,
    decoder := fun t => t.map List.flatten }

/-- A constant 1×1×1 real tensor. -/
def xConst : Fin 1 → Fin 1 → Fin 1 → ℝ := fun _ _ _ => 5

/-- A freshly constructed module tree with one 2-D convolution, one 1-D
convolution and one 2-D batch norm, none initialised yet. -/
def freshTree : PyModule :=
  .mk .other false [.mk .conv2d false [], .mk .conv1d false [],
    .mk .batchNorm2d false []]

/-! ## Helper lemmas -/

theorem exceptBind_ok (a : Shape) (f : Shape → Except PyErr Shape) :
    ((.ok a : Except PyErr Shape) >>= f) = f a := rfl

theorem Conv1D.forwardShape_list3 (inC outC kernel stride padding dilation
    groups b c l : Nat) :
    Conv1D.forwardShape inC outC kernel stride padding dilation groups [b, c, l] =
      conv1dShape3 inC outC kernel stride padding dilation groups [b, c, l] := rfl

theorem conv1dShape3_ok (inC outC kernel stride padding dilation groups b l lo : Nat)
    (hg : groups ≠ 0) (h1 : inC % groups = 0) (h2 : outC % groups = 0)
    (hlen : conv1dOutLen kernel stride padding dilation l = some lo) :
    conv1dShape3 inC outC kernel stride padding dilation groups [b, inC, l] =
      .ok [b, outC, lo] := by
  simp [conv1dShape3, hg, h1, h2, hlen]

theorem conv1dOutLen_1x1 (L : Nat) (hL : 1 ≤ L) :
    conv1dOutLen 1 1 0 1 L = some L := by
  unfold conv1dOutLen
  rw [if_neg (by omega), if_pos (by omega)]
  congr 1
  omega

theorem conv1dOutLen_refine3 (F : Nat) (hF : 1 ≤ F) :
    conv1dOutLen 3 1 1 1 F = some F := by
  unfold conv1dOutLen
  rw [if_neg (by omega), if_pos (by omega)]
  congr 1
  omega

theorem normShape_ok (dim b l : Nat) : normShape dim [b, dim, l] = .ok [b, dim, l] := by
  simp [normShape]

theorem broadcastRev_self : ∀ r : List Nat, broadcastRev r r = some r := by
  intro r
  induction r with
  | nil => rfl
  | cons x xs ih => simp [broadcastRev, broadcastDim, ih]

theorem elementwiseShape_self (s : Shape) : elementwiseShape s s = .ok s := by
  simp [elementwiseShape, broadcastRev_self, List.reverse_reverse]

/-! ## Claim theorems -/

/-- C1: a `ConvTasNet` constructed with `N=512, L=16, B=128, H=512, P=3,
X=8, R=3, norm="gln", num_spks=2, activate="relu", causal=False,
skip_con=False`, applied to a batch of a secondary waveform of shape
`(2, 1, 5000)` and a primary waveform of shape `(2, 1, 80000)`, raises no
error and returns a tensor of shape `(2, 1, 80000)`. -/
theorem ConvTasNet.forwardShape_end_to_end :
    ConvTasNet.forwardShape 512 16 128 512 3 8 3 "gln" 2 false false
      [2, 1, 5000] [2, 1, 80000] = .ok [2, 1, 80000] := by
  decide

/-- C5 (code bug): on an input whose rank is outside `{2, 3}` — here a
4-axis tensor of shape `(2, 1, 4, 5)` — `Conv1D.forward` (and hence the
primary encoder, whose first stage it is) raises an `AttributeError`
about the missing `__name__` attribute, because the intended descriptive
`RuntimeError("... accept 2/3D tensor as input")` formats `self.__name__`,
which `nn.Module` does not define. -/
theorem Conv1D.forwardShape_rank4_attributeError :
    Conv1D.forwardShape 1 512 16 8 0 1 1 [2, 1, 4, 5] =
      .error (.attributeError "Conv1D object has no attribute __name__") ∧
    Encoder.forwardShape 1 512 16 8 [2, 1, 4, 5] =
      .error (.attributeError "Conv1D object has no attribute __name__") := by
  exact ⟨rfl, rfl⟩

/-- C2: for every valid configuration (`N, L, stride ≥ 1`) and every input
waveform `(b, 1, T)` with `T ≥ L`, `Encoder.forward` returns a tensor with
channel count `N` and frame count `floor((T - L)/stride) + 1`, and the
three kernel-3 / stride-1 / padding-1 refinement convolutions leave that
frame count unchanged. -/
theorem Encoder.forwardShape_frames (N L stride b T : Nat) (hN : 1 ≤ N)
    (hL : 1 ≤ L) (hs : 1 ≤ stride) (hT : L ≤ T) :
    Encoder.forwardShape 1 N L stride [b, 1, T] =
      .ok [b, N, (T - L) / stride + 1] ∧
    conv1dOutLen 3 1 1 1 ((T - L) / stride + 1) =
      some ((T - L) / stride + 1) := by
  have hfirst : conv1dOutLen L stride 0 1 T = some ((T - L) / stride + 1) := by
    unfold conv1dOutLen
    rw [if_neg (by omega), if_pos (by omega)]
    have hnum : T + 2 * 0 - (1 * (L - 1) + 1) = T - L := by omega
    rw [hnum]
  have hF1 : 1 ≤ (T - L) / stride + 1 := Nat.le_add_left 1 _
  have e1 : Conv1D.forwardShape 1 N L stride 0 1 1 [b, 1, T] =
      .ok [b, N, (T - L) / stride + 1] := by
    rw [Conv1D.forwardShape_list3]
    exact conv1dShape3_ok 1 N L stride 0 1 1 b T _ one_ne_zero
      (Nat.mod_one 1) (Nat.mod_one N) hfirst
  have e2 : Conv1D.forwardShape N N 3 1 1 1 1 [b, N, (T - L) / stride + 1] =
      .ok [b, N, (T - L) / stride + 1] := by
    rw [Conv1D.forwardShape_list3]
    exact conv1dShape3_ok N N 3 1 1 1 1 b _ _ one_ne_zero
      (Nat.mod_one N) (Nat.mod_one N) (conv1dOutLen_refine3 _ hF1)
  refine ⟨?_, conv1dOutLen_refine3 _ hF1⟩
  unfold Encoder.forwardShape
  rw [e1, exceptBind_ok, e2, exceptBind_ok, e2, exceptBind_ok, e2, exceptBind_ok]
  rfl

/-- Witness for C2 at the end-to-end configuration
`N=512, L=16, stride=8, b=2, T=80000`. -/
theorem Encoder.forwardShape_frames_witness :
    Encoder.forwardShape 1 512 16 8 [2, 1, 80000] =
      .ok [2, 512, (80000 - 16) / 8 + 1] ∧
    conv1dOutLen 3 1 1 1 ((80000 - 16) / 8 + 1) =
      some ((80000 - 16) / 8 + 1) :=
  Encoder.forwardShape_frames 512 16 8 2 80000 (by decide) (by decide)
    (by decide) (by decide)

/-- C4 counterexample: with kernel size `k = 1` and dilation `d = 1` the
causal pad is `0`, the trim `c[:, :, :-0]` empties the time axis, and the
following 1×1 convolution raises a `RuntimeError`; on an input of length 5
the block does not return anything of length 5. -/
theorem Conv1D_Block.causal_kernel1_counterexample :
    Conv1D_Block.forwardShape 2 2 1 1 true [1, 2, 5] =
      .error (.runtimeError "calculated output size too small") ∧
    Conv1D_Block.forwardShape 2 2 1 1 true [1, 2, 5] ≠ .ok [1, 2, 5] := by
  decide

/-- C4 (amended): for every dilation `d ≥ 1` and every kernel size
`k ≥ 2`, a causal `Conv1D_Block` pads the depthwise convolution by
`pad = d*(k-1)` and trims the last `pad` frames from its output, so the
block's output length equals its input length exactly.  (At `k = 1` the
pad is 0 and the Python slice `[:-0]` empties the sequence instead, so the
claim's `k ≥ 1` quantifier fails.) -/
theorem Conv1D_Block.forwardShape_causal_preserves_length
    (b B H k d L : Nat) (hH : 1 ≤ H) (hd : 1 ≤ d) (hk : 2 ≤ k) (hL : 1 ≤ L) :
    Conv1D_Block.padOf k d true = d * (k - 1) ∧
    Conv1D_Block.forwardShape B H k d true [b, B, L] = .ok [b, B, L] := by
  refine ⟨rfl, ?_⟩
  obtain ⟨q, hq2⟩ : ∃ q, d * (k - 1) = q := ⟨_, rfl⟩
  have hq : 0 < q := by rw [← hq2]; exact Nat.mul_pos hd (by omega)
  have e1 : Conv1D.forwardShape B H 1 1 0 1 1 [b, B, L] = .ok [b, H, L] := by
    rw [Conv1D.forwardShape_list3]
    exact conv1dShape3_ok B H 1 1 0 1 1 b L L one_ne_zero
      (Nat.mod_one B) (Nat.mod_one H) (conv1dOutLen_1x1 L hL)
  have hdw : conv1dOutLen k 1 q d L = some (L + q) := by
    unfold conv1dOutLen
    rw [hq2, if_neg (by omega), if_pos (by omega)]
    congr 1
    omega
  have e2 : Conv1D.forwardShape H H k 1 q d H [b, H, L] = .ok [b, H, L + q] := by
    rw [Conv1D.forwardShape_list3]
    exact conv1dShape3_ok H H k 1 q d H b L (L + q) (by omega)
      (Nat.mod_self H) (Nat.mod_self H) hdw
  have e4 : conv1dShape3 H B 1 1 0 1 1 [b, H, L] = .ok [b, B, L] :=
    conv1dShape3_ok H B 1 1 0 1 1 b L L one_ne_zero
      (Nat.mod_one H) (Nat.mod_one B) (conv1dOutLen_1x1 L hL)
  have hsl : sliceNegLen q (L + q) = L := by
    unfold sliceNegLen
    rw [if_neg (by omega)]
    omega
  have hpad : Conv1D_Block.padOf k d true = q := by rw [← hq2]; rfl
  unfold Conv1D_Block.forwardShape
  rw [hpad]
  simp only [e1, e2, e4, normShape_ok, exceptBind_ok, hsl, elementwiseShape_self,
    reduceIte]

/-- Witness for the amended C4 at `b=1, B=2, H=2, k=3, d=1, L=4`. -/
theorem Conv1D_Block.forwardShape_causal_preserves_length_witness :
    Conv1D_Block.padOf 3 1 true = 1 * (3 - 1) ∧
    Conv1D_Block.forwardShape 2 2 3 1 true [1, 2, 4] = .ok [1, 2, 4] :=
  Conv1D_Block.forwardShape_causal_preserves_length 1 2 2 3 1 4
    (by decide) (by decide) (by decide) (by decide)

theorem foldl_append_singleton (g : Nat → BlockCfg) (l : List Nat) :
    ∀ acc : List BlockCfg,
      l.foldl (fun a x => a ++ [g x]) acc = acc ++ l.map g := by
  induction l with
  | nil => intro acc; simp
  | cons x xs ih => intro acc; simp [ih]

theorem Separation.blocks_eq (R X B H P : Nat) (norm : String)
    (causal skip_con : Bool) :
    Separation.blocks R X B H P norm causal skip_con =
      (List.replicate R ((List.range X).map
        (fun x => (⟨B, H, P, 2 ^ x, norm, causal, skip_con⟩ : BlockCfg)))).flatten := by
  induction R with
  | zero => rfl
  | succ R ih =>
    have hstep : Separation.blocks (R + 1) X B H P norm causal skip_con =
        Separation.blocks R X B H P norm causal skip_con ++
          (List.range X).map
            (fun x => (⟨B, H, P, 2 ^ x, norm, causal, skip_con⟩ : BlockCfg)) := by
      unfold Separation.blocks
      rw [List.range_succ, List.foldl_append]
      simp only [List.foldl_cons, List.foldl_nil]
      rw [foldl_append_singleton]
    rw [hstep, ih, List.replicate_succ', List.flatten_append]
    simp

/-- C7: for every `R ≥ 1` and `X ≥ 1`, the separation stack consists of
exactly `R*X` `Conv1D_Block`s whose dilation factors, in construction
order, are the sequence `[2^0, 2^1, …, 2^(X-1)]` repeated identically `R`
times (the dilation resets to 1 at the start of each repeat). -/
theorem Separation.blocks_count_and_dilations (R X B H P : Nat)
    (norm : String) (causal skip_con : Bool) (hR : 1 ≤ R) (hX : 1 ≤ X) :
    (Separation.blocks R X B H P norm causal skip_con).length = R * X ∧
    (Separation.blocks R X B H P norm causal skip_con).map BlockCfg.dilation =
      (List.replicate R ((List.range X).map (fun x => 2 ^ x))).flatten := by
  rw [Separation.blocks_eq]
  constructor
  · rw [List.length_flatten, List.map_replicate, List.length_map,
      List.length_range, List.sum_replicate, smul_eq_mul]
  · rw [List.map_flatten, List.map_replicate, List.map_map]
    rfl

/-- Witness for C7 at the end-to-end configuration `R=3, X=8`. -/
theorem Separation.blocks_count_and_dilations_witness :
    (Separation.blocks 3 8 128 512 3 "gln" false false).length = 3 * 8 ∧
    (Separation.blocks 3 8 128 512 3 "gln" false false).map BlockCfg.dilation =
      (List.replicate 3 ((List.range 8).map (fun x => 2 ^ x))).flatten :=
  Separation.blocks_count_and_dilations 3 8 128 512 3 "gln" false false
    (by decide) (by decide)

/-- C10: `Conv1D_Block`'s `skip_con` constructor default is the *string*
`'True'`, and `forward` tests it only for truthiness, so a block
constructed with any non-empty string — including the string `'False'` —
takes the skip-connection branch and returns the pair
`(skip contribution, residual sum)`; in particular a block built with the
default arguments (second conjunct) always returns a pair. -/
theorem Conv1DBlockM.skip_con_truthiness
    (f1 f2 f3 f4 f5 f6 f7 f8 : Tensor3 → Tensor3) (k d : Nat) (c : Bool)
    (s : String) (x : Tensor3) (hs : s ≠ "") :
    ((Conv1DBlockM.init f1 f2 f3 f4 f5 f6 f7 f8 k d c (.str s)).forward
        x).isPair = true ∧
    ((Conv1DBlockM.init f1 f2 f3 f4 f5 f6 f7 f8 k d c).forward x).isPair =
      true := by
  have hne : s.isEmpty = false := by
    rw [Bool.eq_false_iff]
    intro h
    exact hs ((String.isEmpty_iff s).1 h)
  have htrue : "True".isEmpty = false := rfl
  constructor
  · simp [Conv1DBlockM.init, Conv1DBlockM.forward, truthy, hne,
      BlockResult.isPair]
  · simp [Conv1DBlockM.init, Conv1DBlockM.forward, truthy, htrue,
      BlockResult.isPair]

/-- Witness for C10 with the string `'False'` and identity layers. -/
theorem Conv1DBlockM.skip_con_truthiness_witness :
    ((Conv1DBlockM.init idT idT idT idT idT idT idT idT 3 1 false
        (.str "False")).forward t0).isPair = true ∧
    ((Conv1DBlockM.init idT idT idT idT idT idT idT idT 3 1 false).forward
        t0).isPair = true :=
  Conv1DBlockM.skip_con_truthiness idT idT idT idT idT idT idT idT 3 1 false
    "False" t0 (by decide)

/-- C9: in `ConvTasNet.forward`, each of the `num_spks` masks is
multiplied elementwise against the primary encoder's feature tensor
`w = encoder(x)` — not the fused or separated tensor — every masked tensor
is decoded independently, and only the first speaker's decoded waveform,
with a channel axis re-inserted by `unsqueeze(1)`, is returned. -/
theorem ConvTasNetM.forward_first_speaker (net : ConvTasNetM)
    (z x : Tensor3) (hspk : 1 ≤ net.num_spks) :
    ConvTasNetM.forward net (z, x) =
      unsqueeze1T (((List.range net.num_spks).map (fun i =>
        net.decoder (tMul (net.encoder x)
          ((net.activation (chunkDim1 net.num_spks (net.gen_masks
            (net.separation (net.conv1d (catDim1
              (net.BottleN_S (net.LayerN_S (net.encoder x)))
              (net.AccBottleN_S (net.AccLayerN_S
                (net.acc_encoder z))))))))).getD i [])))).getD 0 []) ∧
    ConvTasNetM.forward net (z, x) =
      unsqueeze1T (net.decoder (tMul (net.encoder x)
        ((net.activation (chunkDim1 net.num_spks (net.gen_masks
          (net.separation (net.conv1d (catDim1
            (net.BottleN_S (net.LayerN_S (net.encoder x)))
            (net.AccBottleN_S (net.AccLayerN_S
              (net.acc_encoder z))))))))).getD 0 []))) := by
  have hmap : ConvTasNetM.forward net (z, x) =
      unsqueeze1T (((List.range net.num_spks).map (fun i =>
        net.decoder (tMul (net.encoder x)
          ((net.activation (chunkDim1 net.num_spks (net.gen_masks
            (net.separation (net.conv1d (catDim1
              (net.BottleN_S (net.LayerN_S (net.encoder x)))
              (net.AccBottleN_S (net.AccLayerN_S
                (net.acc_encoder z))))))))).getD i [])))).getD 0 []) := by
    simp only [ConvTasNetM.forward]
    rw [List.map_map]
    rfl
  refine ⟨hmap, ?_⟩
  obtain ⟨m, hm⟩ : ∃ m, net.num_spks = m + 1 := ⟨net.num_spks - 1, by omega⟩
  rw [hmap, hm, List.range_succ_eq_map, List.map_cons, List.getD_cons_zero]

/-- Witness for C9 at a concrete two-speaker model built from identity
layers. -/
theorem ConvTasNetM.forward_first_speaker_witness :
    ConvTasNetM.forward netW (t0, t0) =
      unsqueeze1T (((List.range netW.num_spks).map (fun i =>
        netW.decoder (tMul (netW.encoder t0)
          ((netW.activation (chunkDim1 netW.num_spks (netW.gen_masks
            (netW.separation (netW.conv1d (catDim1
              (netW.BottleN_S (netW.LayerN_S (netW.encoder t0)))
              (netW.AccBottleN_S (netW.AccLayerN_S
                (netW.acc_encoder t0))))))))).getD i [])))).getD 0 []) ∧
    ConvTasNetM.forward netW (t0, t0) =
      unsqueeze1T (netW.decoder (tMul (netW.encoder t0)
        ((netW.activation (chunkDim1 netW.num_spks (netW.gen_masks
          (netW.separation (netW.conv1d (catDim1
            (netW.BottleN_S (netW.LayerN_S (netW.encoder t0)))
            (netW.AccBottleN_S (netW.AccLayerN_S
              (netW.acc_encoder t0))))))))).getD 0 []))) :=
  ConvTasNetM.forward_first_speaker netW t0 t0 (by decide)

theorem runSkip_eq_foldl (blocks : List Conv1DBlockM) :
    ∀ (x : Tensor3) (acc : SkipAcc) (skips : List Tensor3) (final : Tensor3),
      threadPairs blocks x = some (skips, final) →
      Separation.runSkip acc blocks x = .ok (skips.foldl SkipAcc.add acc) := by
  induction blocks with
  | nil =>
    intro x acc skips final h
    simp only [threadPairs, Option.some.injEq, Prod.mk.injEq] at h
    obtain ⟨rfl, rfl⟩ := h
    rfl
  | cons bfst rest ih =>
    intro x acc skips final h
    cases hb : bfst.forward x with
    | pair sF oF =>
      simp only [threadPairs, hb] at h
      rw [Option.map_eq_some'] at h
      obtain ⟨⟨sk, fi⟩, hthread, heq⟩ := h
      obtain ⟨rfl, rfl⟩ : sF :: sk = skips ∧ fi = final := by
        simpa using heq
      simp only [Separation.runSkip, hb]
      rw [ih oF (acc.add sF) sk fi hthread]
      rfl
    | single oF =>
      simp only [threadPairs, hb] at h
      exact absurd h (by simp)

theorem runPlain_eq (blocks : List Conv1DBlockM) :
    ∀ (x final : Tensor3), threadSingles blocks x = some final →
      Separation.runPlain blocks x = .ok final := by
  induction blocks with
  | nil =>
    intro x final h
    simp only [threadSingles, Option.some.injEq] at h
    rw [h]
    rfl
  | cons bfst rest ih =>
    intro x final h
    cases hb : bfst.forward x with
    | pair sF oF =>
      simp only [threadSingles, hb] at h
      exact absurd h (by simp)
    | single oF =>
      simp only [threadSingles, hb] at h
      simp only [Separation.runPlain, hb]
      exact ih oF final h

/-- C6: when `Separation` is constructed with `skip_con=True`,
`Separation.forward` returns the sum of every block's skip output
(starting from the integer 0 and adding each block's contribution in
construction order, the input being threaded through the residual
outputs), not the final residual stream; with `skip_con=False` it returns
the final residual stream after threading the input through all blocks in
sequence. -/
theorem SeparationM.forward_skip_sum_or_residual
    (blocks : List Conv1DBlockM) (x : Tensor3) :
    (∀ skips final, threadPairs blocks x = some (skips, final) →
      SeparationM.forward true blocks x = .ok (sumSkips skips)) ∧
    (∀ final, threadSingles blocks x = some final →
      SeparationM.forward false blocks x = .ok (.tens final)) := by
  constructor
  · intro skips final h
    unfold SeparationM.forward
    rw [if_pos rfl]
    exact runSkip_eq_foldl blocks x .zero skips final h
  · intro final h
    unfold SeparationM.forward
    rw [if_neg Bool.false_ne_true]
    rw [runPlain_eq blocks x final h]
    rfl

/-- Witness for C6: a one-block stack with boolean `skip_con` in each
mode. -/
theorem SeparationM.forward_skip_sum_or_residual_witness :
    SeparationM.forward true [blkPairW] t0 = .ok (sumSkips [t0]) ∧
    SeparationM.forward false [blkSingleW] t0 = .ok (.tens t0) :=
  ⟨(SeparationM.forward_skip_sum_or_residual [blkPairW] t0).1 [t0] t0
      (by decide),
   (SeparationM.forward_skip_sum_or_residual [blkSingleW] t0).2 t0
      (by decide)⟩

mutual

theorem weights_init_setFlags :
    ∀ m : PyModule, weights_init (setFlags m) = setFlags m
  | .mk k w cs => by
    simp only [setFlags, weights_init]
    cases hk : weightsInitTarget k with
    | true => simp [hk]
    | false => simp [hk, weightsInitList_setFlagsList cs]

theorem weightsInitList_setFlagsList :
    ∀ cs : List PyModule, weightsInitList (setFlagsList cs) = setFlagsList cs
  | [] => rfl
  | c :: cs => by
    simp only [setFlagsList, weightsInitList]
    rw [weights_init_setFlags c, weightsInitList_setFlagsList cs]

end

mutual

theorem applyWeightsInit_eq_setFlags :
    ∀ m : PyModule, applyWeightsInit m = setFlags m
  | .mk k w cs => by
    simp only [applyWeightsInit]
    rw [applyWeightsInitList_eq_setFlagsList cs]
    simp only [weights_init, setFlags]
    cases hk : weightsInitTarget k with
    | true => simp [hk]
    | false => simp [hk, weightsInitList_setFlagsList cs]

theorem applyWeightsInitList_eq_setFlagsList :
    ∀ cs : List PyModule, applyWeightsInitList cs = setFlagsList cs
  | [] => rfl
  | c :: cs => by
    simp only [applyWeightsInitList, setFlagsList]
    rw [applyWeightsInit_eq_setFlags c, applyWeightsInitList_eq_setFlagsList cs]

end

mutual

theorem submodules_setFlags :
    ∀ m : PyModule, (setFlags m).submodules = m.submodules.map setFlags
  | .mk k w cs => by
    simp only [setFlags, PyModule.submodules]
    rw [submodulesList_setFlagsList cs]
    simp [setFlags]

theorem submodulesList_setFlagsList :
    ∀ cs : List PyModule,
      PyModule.submodulesList (setFlagsList cs) =
        (PyModule.submodulesList cs).map setFlags
  | [] => rfl
  | c :: cs => by
    simp only [setFlagsList, PyModule.submodulesList]
    rw [submodules_setFlags c, submodulesList_setFlagsList cs, List.map_append]

end

/-- C3 counterexample: `LitMultimodalModel` wrapping a bare 1-D
convolution returns it untouched — `weights_init` dispatches only on the
2-D classes, and the wrapped `ConvTasNet` is built entirely from 1-D
convolutions and norms — so not every convolution submodule is
initialised. -/
theorem weights_init_misses_conv1d :
    ¬ (∀ sub ∈ (LitMultimodalModel.initModel
          (.mk .conv1d false [])).submodules,
        (isConvKind sub.kind || isBatchNormKind sub.kind) = true →
          sub.weightsInitialized = true) := by
  intro hclaim
  have hmem : (PyModule.mk .conv1d false []) ∈
      (LitMultimodalModel.initModel (.mk .conv1d false [])).submodules := by
    simp [LitMultimodalModel.initModel, applyWeightsInit, applyWeightsInitList,
      weights_init, weightsInitList, weightsInitTarget, PyModule.submodules,
      PyModule.submodulesList]
  have hfalse := hclaim _ hmem rfl
  simp [PyModule.weightsInitialized] at hfalse

/-- C3 (amended): the recursive `weights_init` traversal applied at
construction initialises exactly the `nn.Conv2d` / `nn.ConvTranspose2d`
and `nn.BatchNorm2d` submodules of the wrapped model (normal-distributed
weights, zero/constant biases); 1-D convolution and 1-D batch-norm
submodules are left untouched. -/
theorem weights_init_exactly_targets (model : PyModule)
    (hfresh : ∀ sub ∈ model.submodules, sub.weightsInitialized = false) :
    ∀ sub ∈ (LitMultimodalModel.initModel model).submodules,
      sub.weightsInitialized = weightsInitTarget sub.kind := by
  intro sub hsub
  rw [LitMultimodalModel.initModel, applyWeightsInit_eq_setFlags,
    submodules_setFlags, List.mem_map] at hsub
  obtain ⟨s, hsmem, rfl⟩ := hsub
  have hw := hfresh s hsmem
  cases s with
  | mk k w cs =>
    simp only [PyModule.weightsInitialized] at hw
    simp [setFlags, PyModule.weightsInitialized, PyModule.kind, hw]

/-- Witness for the amended C3: in the concrete fresh tree, the 2-D
convolution child ends up initialised (and, by the same theorem, the
`conv1d` child retains `weightsInitTarget .conv1d = false`). -/
theorem weights_init_exactly_targets_witness :
    (PyModule.mk .conv2d true []).weightsInitialized =
      weightsInitTarget (PyModule.mk .conv2d true []).kind :=
  weights_init_exactly_targets freshTree
    (by
      intro sub hsub
      simp [freshTree, PyModule.submodules, PyModule.submodulesList] at hsub
      rcases hsub with rfl | rfl | rfl | rfl <;> rfl)
    (PyModule.mk .conv2d true [])
    (by
      simp [freshTree, LitMultimodalModel.initModel, applyWeightsInit,
        applyWeightsInitList, weights_init, weightsInitList, weightsInitTarget,
        PyModule.submodules, PyModule.submodulesList])

theorem GlobalLayerNorm.varCT_nonneg {b c l : Nat}
    (x : Fin b → Fin c → Fin l → ℝ) (i : Fin b) :
    0 ≤ GlobalLayerNorm.varCT x i := by
  unfold GlobalLayerNorm.varCT
  apply div_nonneg
  · apply Finset.sum_nonneg
    intro j _
    apply Finset.sum_nonneg
    intro k _
    exact sq_nonneg _
  · positivity

theorem gln_sum_center {b c l : Nat} (hc : 0 < c) (hl : 0 < l)
    (x : Fin b → Fin c → Fin l → ℝ) (i : Fin b) :
    ∑ j, ∑ k, (x i j k - GlobalLayerNorm.meanCT x i) = 0 := by
  have hcne : ((c : ℝ)) ≠ 0 := Nat.cast_ne_zero.2 hc.ne'
  have hlne : ((l : ℝ)) ≠ 0 := Nat.cast_ne_zero.2 hl.ne'
  simp only [Finset.sum_sub_distrib, Finset.sum_const, Finset.card_univ,
    Fintype.card_fin, nsmul_eq_mul]
  rw [GlobalLayerNorm.meanCT]
  field_simp
  ring

theorem varCT_eq {b c l : Nat} (x : Fin b → Fin c → Fin l → ℝ) (i : Fin b) :
    GlobalLayerNorm.varCT x i =
      (∑ j, ∑ k, (x i j k - GlobalLayerNorm.meanCT x i) ^ 2) /
        ((c : ℝ) * (l : ℝ)) := rfl

theorem gln_meanCT_out {b c l : Nat} (hc : 0 < c) (hl : 0 < l) (eps : ℝ)
    (weight bias : Fin c → ℝ) (x : Fin b → Fin c → Fin l → ℝ) (i : Fin b) :
    GlobalLayerNorm.meanCT
      (GlobalLayerNorm.forwardR eps false weight bias x) i = 0 := by
  have hsum0 := gln_sum_center hc hl x i
  unfold GlobalLayerNorm.meanCT
  have hy : ∀ j k, GlobalLayerNorm.forwardR eps false weight bias x i j k =
      (x i j k - GlobalLayerNorm.meanCT x i) /
        Real.sqrt (GlobalLayerNorm.varCT x i + eps) := by
    intro j k
    simp [GlobalLayerNorm.forwardR]
  have hinner : ∑ j, ∑ k,
      GlobalLayerNorm.forwardR eps false weight bias x i j k = 0 := by
    calc ∑ j, ∑ k, GlobalLayerNorm.forwardR eps false weight bias x i j k
        = ∑ j, ∑ k, (x i j k - GlobalLayerNorm.meanCT x i) /
            Real.sqrt (GlobalLayerNorm.varCT x i + eps) :=
          Finset.sum_congr rfl (fun j _ =>
            Finset.sum_congr rfl (fun k _ => hy j k))
      _ = (∑ j, ∑ k, (x i j k - GlobalLayerNorm.meanCT x i)) /
            Real.sqrt (GlobalLayerNorm.varCT x i + eps) := by
          simp only [Finset.sum_div]
      _ = 0 := by rw [hsum0, zero_div]
  rw [hinner, zero_div]

theorem gln_varCT_out {b c l : Nat} (hc : 0 < c) (hl : 0 < l) (eps : ℝ)
    (heps : 0 < eps) (weight bias : Fin c → ℝ)
    (x : Fin b → Fin c → Fin l → ℝ) (i : Fin b) :
    GlobalLayerNorm.varCT
        (GlobalLayerNorm.forwardR eps false weight bias x) i =
      GlobalLayerNorm.varCT x i / (GlobalLayerNorm.varCT x i + eps) := by
  have hvnn := GlobalLayerNorm.varCT_nonneg x i
  have hve : (0 : ℝ) < GlobalLayerNorm.varCT x i + eps := by linarith
  have hs2 : Real.sqrt (GlobalLayerNorm.varCT x i + eps) ^ 2 =
      GlobalLayerNorm.varCT x i + eps := Real.sq_sqrt hve.le
  have h0 := gln_meanCT_out hc hl eps weight bias x i
  have hy : ∀ j k, GlobalLayerNorm.forwardR eps false weight bias x i j k =
      (x i j k - GlobalLayerNorm.meanCT x i) /
        Real.sqrt (GlobalLayerNorm.varCT x i + eps) := by
    intro j k
    simp [GlobalLayerNorm.forwardR]
  have hsums : (∑ j, ∑ k, (GlobalLayerNorm.forwardR eps false weight bias x
        i j k - 0) ^ 2) =
      (∑ j, ∑ k, (x i j k - GlobalLayerNorm.meanCT x i) ^ 2) /
        Real.sqrt (GlobalLayerNorm.varCT x i + eps) ^ 2 := by
    calc (∑ j, ∑ k, (GlobalLayerNorm.forwardR eps false weight bias x
          i j k - 0) ^ 2)
        = ∑ j, ∑ k, ((x i j k - GlobalLayerNorm.meanCT x i) /
            Real.sqrt (GlobalLayerNorm.varCT x i + eps)) ^ 2 :=
          Finset.sum_congr rfl (fun j _ =>
            Finset.sum_congr rfl (fun k _ => by rw [sub_zero, hy j k]))
      _ = (∑ j, ∑ k, (x i j k - GlobalLayerNorm.meanCT x i) ^ 2) /
            Real.sqrt (GlobalLayerNorm.varCT x i + eps) ^ 2 := by
          simp only [div_pow, Finset.sum_div]
  rw [varCT_eq (GlobalLayerNorm.forwardR eps false weight bias x) i, h0,
    hsums, div_right_comm, ← varCT_eq x i, hs2]

/-- C8 counterexample: on a constant input (a 1×1×1 tensor with value 5)
the per-sample variance of the normalised output is 0, not within the
`eps = 1e-5` tolerance of 1: `GlobalLayerNorm` maps a constant sample to
the all-zero sample. -/
theorem GlobalLayerNorm.variance_counterexample :
    ¬ |GlobalLayerNorm.varCT
        (GlobalLayerNorm.forwardR (1 / 100000) false
          (fun _ => 1) (fun _ => 0) xConst) 0 - 1| ≤ 1 / 100000 := by
  have hm : GlobalLayerNorm.meanCT xConst 0 = 5 := by
    simp [GlobalLayerNorm.meanCT, xConst]
  have hy : ∀ j k : Fin 1, GlobalLayerNorm.forwardR (1 / 100000) false
      (fun _ => 1) (fun _ => 0) xConst 0 j k = 0 := by
    intro j k
    simp [GlobalLayerNorm.forwardR, hm, xConst]
  have hvar : GlobalLayerNorm.varCT
      (GlobalLayerNorm.forwardR (1 / 100000) false
        (fun _ => 1) (fun _ => 0) xConst) 0 = 0 := by
    simp [GlobalLayerNorm.varCT, GlobalLayerNorm.meanCT, hy]
  rw [hvar]
  norm_num

/-- C8 (amended): for every 3-axis input, `GlobalLayerNorm` with
elementwise affine disabled returns `(x - mean) / sqrt(var + eps)` with
mean and variance computed jointly over the channel and time axes per
sample (this is `GlobalLayerNorm.forwardR` itself); the per-sample mean of
the output is exactly 0, its per-sample variance is `var/(var + eps)`, and
that variance is within `eps` of 1 whenever `var + eps ≥ 1` (a constant
input, with `var = 0`, violates the unconditional "variance ≈ 1"
reading). -/
theorem GlobalLayerNorm.forwardR_normalizes {b c l : Nat} (hc : 0 < c)
    (hl : 0 < l) (eps : ℝ) (heps : 0 < eps) (weight bias : Fin c → ℝ)
    (x : Fin b → Fin c → Fin l → ℝ) (i : Fin b) :
    GlobalLayerNorm.meanCT
      (GlobalLayerNorm.forwardR eps false weight bias x) i = 0 ∧
    GlobalLayerNorm.varCT
        (GlobalLayerNorm.forwardR eps false weight bias x) i =
      GlobalLayerNorm.varCT x i / (GlobalLayerNorm.varCT x i + eps) ∧
    (1 ≤ GlobalLayerNorm.varCT x i + eps →
      |GlobalLayerNorm.varCT
          (GlobalLayerNorm.forwardR eps false weight bias x) i - 1| ≤ eps) := by
  refine ⟨gln_meanCT_out hc hl eps weight bias x i,
    gln_varCT_out hc hl eps heps weight bias x i, ?_⟩
  intro h1
  have hvnn := GlobalLayerNorm.varCT_nonneg x i
  have hve : (0 : ℝ) < GlobalLayerNorm.varCT x i + eps := by linarith
  rw [gln_varCT_out hc hl eps heps weight bias x i]
  have hdiff : GlobalLayerNorm.varCT x i /
      (GlobalLayerNorm.varCT x i + eps) - 1 =
      -(eps / (GlobalLayerNorm.varCT x i + eps)) := by
    field_simp
  rw [hdiff, abs_neg, abs_of_pos (div_pos heps hve)]
  exact div_le_self heps.le h1

/-- Witness for the amended C8 with `eps = 1` on the constant tensor. -/
theorem GlobalLayerNorm.forwardR_normalizes_witness :
    GlobalLayerNorm.meanCT
      (GlobalLayerNorm.forwardR 1 false (fun _ => 1) (fun _ => 0) xConst)
      0 = 0 ∧
    GlobalLayerNorm.varCT
        (GlobalLayerNorm.forwardR 1 false (fun _ => 1) (fun _ => 0) xConst)
        0 =
      GlobalLayerNorm.varCT xConst 0 / (GlobalLayerNorm.varCT xConst 0 + 1) ∧
    (1 ≤ GlobalLayerNorm.varCT xConst 0 + 1 →
      |GlobalLayerNorm.varCT
          (GlobalLayerNorm.forwardR 1 false (fun _ => 1) (fun _ => 0) xConst)
          0 - 1| ≤ 1) :=
  GlobalLayerNorm.forwardR_normalizes Nat.one_pos Nat.one_pos 1 one_pos
    (fun _ => 1) (fun _ => 0) xConst 0
